import Mathlib

/-!
Verification development for the StremioSubMaker storage/caching engine.

Shallow embedding of the JavaScript sources:
* `src/utils/errorClassifier.js` — error classification and catch-block handling,
* `src/storage` bundle — the abstract `StorageAdapter` contract with its
  `CACHE_TYPES` / `SIZE_LIMITS` / `DEFAULT_TTL` tables, and the SSRF URL guard
  (`validateUrlSync`, `validateUrl`, `assertSafeUrl`),
* `src/services/mal.js` — the Redis-backed `MALService` ID-mapping client,
* `src/services/anidb.js` — `AniDBService` and the legacy in-memory `MALService`,
* the download cache module (`getCached` / `saveCached`).

Platform facilities that are not repository code (the WHATWG `URL` parser, the
`dns.lookup` resolver, the network fetch loops, the `lru-cache` store) are
modelled as explicit oracle parameters or as a plain key/value store, so that the
repository's own control flow — which is what the claims are about — stays fully
explicit and executable.
-/

namespace Spec2Proof

/-- A JavaScript value, restricted to the shapes the embedded code inspects:
strings, integer numbers, booleans, `null`, `undefined`, and a generic object. -/
inductive JsValue where
  | str (s : String)
  | num (n : Int)
  | boolean (b : Bool)
  | nullv
  | undef
  | obj
deriving DecidableEq, Repr

/-- JavaScript truthiness test (`!v` is `jsFalsy v`): empty string, `0`,
`false`, `null` and `undefined` are falsy; objects are always truthy. -/
def jsFalsy : JsValue → Bool
  | .str s => s = ""
  | .num n => n = 0
  | .boolean b => !b
  | .nullv => true
  | .undef => true
  | .obj => false

/-- JavaScript `String(v)` coercion for the modelled value shapes. -/
def jsToString : JsValue → String
  | .str s => s
  | .num n => toString n
  | .boolean b => if b then "true" else "false"
  | .nullv => "null"
  | .undef => "undefined"
  | .obj => "[object Object]"

/-- JavaScript `String.prototype.trim()` (whitespace at both ends removed),
computed over the character list. -/
def jsTrim (s : String) : String :=
  String.mk (((s.data.dropWhile Char.isWhitespace).reverse.dropWhile
    Char.isWhitespace).reverse)

/-- Embeds `String.prototype.toLowerCase()`, computed over the character list. -/
def strLower (s : String) : String := String.mk (s.data.map Char.toLower)

/-- Embeds `String.prototype.startsWith`, computed over the character lists. -/
def strStartsWith (s pre : String) : Bool := pre.data.isPrefixOf s.data

/-- Embeds `String.prototype.endsWith`, computed over the character lists. -/
def strEndsWith (s suf : String) : Bool := suf.data.isSuffixOf s.data

/-- Embeds `String.prototype.includes` for a single character. -/
def strContainsChar (s : String) (c : Char) : Bool := s.data.contains c

/-- Split a character list on a separator character (no separator collapsing:
`"a..b"` splits into `["a", "", "b"]`, as `split('.')` does). -/
def splitOnChar (c : Char) : List Char → List (List Char)
  | [] => [[]]
  | d :: rest =>
    let r := splitOnChar c rest
    if d = c then [] :: r
    else
      match r with
      | h :: t => (d :: h) :: t
      | [] => [[d]]

/-- Embeds `String.prototype.split` on a single-character separator. -/
def strSplitOnChar (s : String) (c : Char) : List String :=
  (splitOnChar c s.data).map String.mk

namespace ErrorClassifier

/-- Which built-in error constructor produced an error object; `instanceof
TypeError` etc. in `errorClassifier.js` is modelled as a test on this tag. -/
inductive ErrCtor where
  | typeError
  | referenceError
  | syntaxError
  | rangeError
  | plainError
deriving DecidableEq, Repr

/-- A JavaScript `Error` object as inspected by `errorClassifier.js`:
constructor tag, `name`, `message`, optional `stack` and `code`. -/
structure JsError where
  ctor : ErrCtor := .plainError
  name : String := "Error"
  message : String := ""
  stack : Option String := none
  code : Option String := none
deriving DecidableEq, Repr

/-- One segment of a `BUG_PATTERNS` regular expression: a literal run of
characters, or `.*` (any characters except line terminators, greedy). -/
inductive PatSeg where
  | lit (cs : List Char)
  | dotStar
deriving DecidableEq, Repr

/-- JavaScript line terminators, which `.` in a regex does not match. -/
def isLineTerm (c : Char) : Bool :=
  c = '\n' || c = '\r' || c.toNat = 0x2028 || c.toNat = 0x2029

/-- Consume a literal character run from the front of the input, returning the
rest of the input on success. -/
def litPrefix : List Char → List Char → Option (List Char)
  | [], s => some s
  | _ :: _, [] => none
  | c :: cs, d :: ds => if c = d then litPrefix cs ds else none

/-- All suffixes of the input reachable by skipping characters none of which is
a line terminator — the positions `.*` can hand over to the rest of a pattern. -/
def noNewlineSuffixes : List Char → List (List Char)
  | [] => [[]]
  | c :: t => (c :: t) :: (if isLineTerm c then [] else noNewlineSuffixes t)

/-- Match a pattern-segment list against the front of the input (anchored at
the current position, free at the end — as in an unanchored regex test). -/
def segsMatchFrom : List PatSeg → List Char → Bool
  | [], _ => true
  | .lit l :: rest, s =>
    match litPrefix l s with
    | some s' => segsMatchFrom rest s'
    | none => false
  | .dotStar :: rest, s =>
    (noNewlineSuffixes s).any (fun t => segsMatchFrom rest t)

/-- Unanchored match: the pattern may start at any position of the input. -/
def anySuffixMatch (p : List PatSeg) : List Char → Bool
  | [] => segsMatchFrom p []
  | c :: t => segsMatchFrom p (c :: t) || anySuffixMatch p t

/-- Embeds `pattern.test(msg)` for a case-insensitive pattern: both the pattern
literals (written lowercase below) and the message are lowercased. -/
def patternTest (p : List PatSeg) (msg : String) : Bool :=
  anySuffixMatch p (msg.data.map Char.toLower)

/-- A pattern consisting of a single literal. -/
def litP (s : String) : List PatSeg := [.lit s.data]

/-- Embeds `BUG_PATTERNS` from `errorClassifier.js`. Each `/i` regex is a literal, a
literal–`.*`–literal sequence, or an alternation of literals; the alternation
`/illegal (return|break|continue)/i` is expanded into its three alternatives,
which leaves the boolean `some(p => p.test(msg))` outcome unchanged. -/
def BUG_PATTERNS : List (List PatSeg) :=
  [ litP "is not a function"
  , litP "is not defined"
  , litP "cannot read propert"
  , litP "cannot set propert"
  , [.lit "cannot access".data, .dotStar, .lit "before initialization".data]
  , litP "is not iterable"
  , litP "is not a constructor"
  , litP "unexpected token"
  , litP "invalid or unexpected"
  , litP "stack overflow"
  , litP "maximum call stack"
  , litP "assignment to constant"
  , litP "invalid left-hand side"
  , litP "illegal return"
  , litP "illegal break"
  , litP "illegal continue"
  , litP "duplicate parameter"
  , litP "already been declared"
  , litP "undefined is not an object"
  , litP "null is not an object"
  , litP "circular structure"
  , litP "out of memory"
  , [.lit "cannot convert".data, .dotStar, .lit "to object".data]
  , litP "invalid array length"
  , litP "precision is out of range"
  , litP "radix must be"
  , litP "repeat count must be"
  , litP "cannot use import"
  , litP "unexpected end of"
  ]

/-- The fallback test on `error.name`: `/^(Type|Reference|Syntax|Range)Error$/i`. -/
def nameIsBugName (name : String) : Bool :=
  let n := strLower name
  n = "typeerror" || n = "referenceerror" || n = "syntaxerror" || n = "rangeerror"

/-- Embeds `isProgrammingBug(error)` from `errorClassifier.js`: `null`/`undefined`
errors are not bugs; instances of `TypeError`/`ReferenceError`/`SyntaxError`/
`RangeError` are; otherwise the message is matched against `BUG_PATTERNS`, and
finally the error `name` is checked as a fallback. -/
def isProgrammingBug : Option JsError → Bool
  | none => false
  | some e =>
    if e.ctor = .typeError then true
    else if e.ctor = .referenceError then true
    else if e.ctor = .syntaxError then true
    else if e.ctor = .rangeError then true
    else if BUG_PATTERNS.any (fun p => patternTest p e.message) then true
    else if nameIsBugName e.name then true
    else false

/-- Options of `handleCaughtError`, with the source's defaults:
`fallbackValue = null`, `rethrowBugs = false`, `includeStack = true`. -/
structure HandleOptions where
  fallbackValue : JsValue := .nullv
  rethrowBugs : Bool := false
  includeStack : Bool := true
deriving DecidableEq, Repr

/-- The log level `handleCaughtError` emits at. -/
inductive LogLevel where
  | errorL
  | warnL
deriving DecidableEq, Repr

/-- Embeds `handleCaughtError(error, context, logger, options)`: a programming bug is
always logged at error level and is rethrown only when `options.rethrowBugs`
is true, otherwise the fallback value is returned; an operational error is
logged at warn level and the fallback value is returned. The pair gives the
log level used and the outcome (`Except.error` models `throw`). -/
def handleCaughtError (error : JsError) (_context : String)
    (options : HandleOptions) : LogLevel × Except JsError JsValue :=
  if isProgrammingBug (some error) then
    (.errorL,
      if options.rethrowBugs then Except.error error
      else Except.ok options.fallbackValue)
  else
    (.warnL, Except.ok options.fallbackValue)

end ErrorClassifier

namespace StorageAdapter

open ErrorClassifier

/-- The eleven operations of the storage-adapter contract. (`initialize` and the
rest keep their JavaScript names via `jsName` below.) -/
inductive AdapterMethod where
  | getM
  | setM
  | deleteM
  | existsM
  | listM
  | sizeM
  | metadataM
  | cleanupM
  | initM
  | closeM
  | healthCheckM
deriving DecidableEq, Repr

/-- JavaScript method name of each contract operation. -/
def jsName : AdapterMethod → String
  | .getM => "get"
  | .setM => "set"
  | .deleteM => "delete"
  | .existsM => "exists"
  | .listM => "list"
  | .sizeM => "size"
  | .metadataM => "metadata"
  | .cleanupM => "cleanup"
  | .initM => "initialize"
  | .closeM => "close"
  | .healthCheckM => "healthCheck"

/-- The `StorageAdapter` constructor: `new.target === StorageAdapter` (that is,
instantiating the abstract class directly) throws a `TypeError`; constructing
any subclass runs the same constructor with a different `new.target` and
succeeds, regardless of which methods the subclass overrides. -/
def construct (newTargetIsAbstract : Bool) : Except JsError Unit :=
  if newTargetIsAbstract then
    Except.error
      { ctor := .typeError, name := "TypeError",
        message := "Cannot instantiate abstract StorageAdapter class" }
  else Except.ok ()

/-- The error thrown by each of the eleven base-class method bodies
(`throw new Error('Method X() must be implemented')`). -/
def unimplementedError (m : AdapterMethod) : JsError :=
  { ctor := .plainError, name := "Error",
    message := "Method " ++ jsName m ++ "() must be implemented" }

/-- The base-class implementation of every contract operation: throw. -/
def defaultImpl (m : AdapterMethod) : Except JsError JsValue :=
  Except.error (unimplementedError m)

/-- Embeds `StorageAdapter.CACHE_TYPES` as a JavaScript property lookup: accessing a
listed member yields its string value, accessing any other member (such as
`PROVIDER_METADATA`) yields `undefined` (`none`). -/
def CACHE_TYPES : String → Option String := fun member =>
  if member = "TRANSLATION" then some "translation"
  else if member = "BYPASS" then some "bypass"
  else if member = "PARTIAL" then some "partial"
  else if member = "SYNC" then some "sync"
  else if member = "SESSION" then some "session"
  else none

/-- Embeds `StorageAdapter.SIZE_LIMITS`, keyed by cache-type value: `some (some n)` is
a ceiling of `n` bytes, `some none` is the JavaScript `null` (no limit), and
`none` means the key is not present in the object. -/
def SIZE_LIMITS : String → Option (Option Nat) := fun cacheType =>
  if cacheType = "translation" then some (some (50 * 1024 * 1024 * 1024))
  else if cacheType = "bypass" then some (some (10 * 1024 * 1024 * 1024))
  else if cacheType = "partial" then some (some (10 * 1024 * 1024 * 1024))
  else if cacheType = "sync" then some (some (50 * 1024 * 1024 * 1024))
  else if cacheType = "session" then some none
  else none

/-- Embeds `StorageAdapter.DEFAULT_TTL` in seconds, keyed by cache-type value:
`some (some n)` is a TTL of `n` seconds, `some none` is the JavaScript `null`
(no expiry), and `none` means the key is not present. -/
def DEFAULT_TTL : String → Option (Option Nat) := fun cacheType =>
  if cacheType = "translation" then some none
  else if cacheType = "bypass" then some (some (12 * 60 * 60))
  else if cacheType = "partial" then some (some (60 * 60))
  else if cacheType = "sync" then some none
  else if cacheType = "session" then some none
  else none

end StorageAdapter

/-- A concrete adapter subclassing `StorageAdapter`: for each contract
operation it either provides an override or inherits the throwing base-class
body. This is the shape the claim about "an adapter that cannot support an
operation" quantifies over. -/
structure ConcreteAdapter where
  overrides : StorageAdapter.AdapterMethod → Option (Unit → Except ErrorClassifier.JsError JsValue)

namespace ConcreteAdapter

/-- Constructing a concrete adapter runs the inherited `StorageAdapter`
constructor with `new.target` equal to the subclass, never the abstract class. -/
def construct (_a : ConcreteAdapter) : Except ErrorClassifier.JsError Unit :=
  StorageAdapter.construct false

/-- Invoking a contract operation on a concrete adapter: dispatch to the
override when present, otherwise to the throwing base-class body. -/
def invoke (a : ConcreteAdapter) (m : StorageAdapter.AdapterMethod) :
    Except ErrorClassifier.JsError JsValue :=
  match a.overrides m with
  | some f => f ()
  | none => StorageAdapter.defaultImpl m

end ConcreteAdapter

/-- Case-insensitive consumption of a fixed character sequence from the front
of the input, returning the rest on success. -/
def dropCI : List Char → List Char → Option (List Char)
  | [], cs => some cs
  | _ :: _, [] => none
  | p :: ps, c :: cs => if c.toLower = p.toLower then dropCI ps cs else none

/-- One attempt of the regex `(?:pfx[:-])?(\d+)` at the current position: first
try with the optional prefix (service name followed by `:` or `-`), then — as
the backtracking regex does — without it, requiring a digit right here. The
captured group is the maximal digit run. -/
def matchIdAt (pfx : List Char) (cs : List Char) : Option (List Char) :=
  let withPrefix : Option (List Char) :=
    match dropCI pfx cs with
    | some (c :: rest) =>
      if c = ':' ∨ c = '-' then
        let ds := rest.takeWhile Char.isDigit
        if ds.isEmpty then none else some ds
      else none
    | _ => none
  match withPrefix with
  | some ds => some ds
  | none =>
    match cs with
    | c :: _ => if c.isDigit then some (cs.takeWhile Char.isDigit) else none
    | [] => none

/-- Leftmost match of `(?:pfx[:-])?(\d+)` over the whole input
(`String.prototype.match` semantics for this pattern). -/
def findIdMatch (pfx : List Char) : List Char → Option (List Char)
  | [] => none
  | c :: rest =>
    match matchIdAt pfx (c :: rest) with
    | some ds => some ds
    | none => findIdMatch pfx rest

/-- Embeds `extractNumericId` as defined identically in the MAL, AniList and AniDB
services (with `pfx` being `"mal"`, `"anilist"` or `"anidb"` respectively):
falsy input gives `null`, otherwise the first capture of
`String(id).match(/(?:pfx[:-])?(\d+)/i)`. -/
def extractNumericId (pfx : String) (idValue : JsValue) : Option String :=
  if jsFalsy idValue then none
  else (findIdMatch pfx.data (jsToString idValue).data).map (fun ds => String.mk ds)

/-- JavaScript `if (x)` on a nullable string: `null`/`undefined` and the empty
string are falsy; any other string passes through. -/
def jsTruthyStr : Option String → Option String
  | some s => if s = "" then none else some s
  | none => none

/-- TTL constant used on a shared-cache write: `CACHE_TTLS.ANIME_POSITIVE`
(successful mapping) or `CACHE_TTLS.ANIME_NEGATIVE` (negative sentinel). The
numeric values live in `sharedCache.js`, outside the embedded sources, so the
writes record which constant was passed. -/
inductive TtlTag where
  | positive
  | negative
deriving DecidableEq, Repr

/-- One shared-cache interaction performed by an ID-mapping service, recording
the key and the `cacheType` argument passed to `getShared`/`setShared`. -/
inductive CacheEvent where
  | read (key : String) (cacheType : Option String)
  | write (key : String) (value : String) (cacheType : Option String) (ttl : TtlTag)
deriving DecidableEq, Repr

/-- The `cacheType` argument of a cache event. -/
def CacheEvent.cacheTypeOf : CacheEvent → Option String
  | .read _ ct => ct
  | .write _ _ ct _ => ct

/-- Observable outcome of one `getImdbId` call: the returned value, whether the
external API path was entered, and the shared-cache interactions performed. -/
structure SvcResult where
  result : Option String := none
  apiContacted : Bool := false
  events : List CacheEvent := []
deriving DecidableEq, Repr

/-- Outcome of `getShared(key, cacheType)` as seen by a caller: a value, `null`
(miss), or a thrown error. -/
abbrev CacheReadOracle : Type :=
  String → Option String → Except ErrorClassifier.JsError (Option String)

namespace MALService

/-- The `cacheType` argument every `getShared`/`setShared` call in
`services/mal.js` passes: the property access
`StorageAdapter.CACHE_TYPES.PROVIDER_METADATA`. -/
def cacheTypeArg : Option String := StorageAdapter.CACHE_TYPES "PROVIDER_METADATA"

/-- The Jikan fetch-and-retry loop of `services/mal.js` `getImdbId`, entered
after a cache miss. Its network interaction is abstracted as the oracle `api`
giving the loop's outcome for a numeric MAL ID: `some imdbId` when an IMDB
external link was found (cached with the positive TTL), `none` when no link
was found or all retries failed (the `'null'` sentinel is cached with the
negative TTL and `null` is returned). -/
def apiPath (pfx nid : String) (api : String → Option String)
    (evs : List CacheEvent) : SvcResult :=
  let cacheKey := pfx ++ nid
  match api nid with
  | some imdbId =>
    { result := some imdbId, apiContacted := true,
      events := evs ++ [.write cacheKey imdbId cacheTypeArg .positive] }
  | none =>
    { result := none, apiContacted := true,
      events := evs ++ [.write cacheKey "null" cacheTypeArg .negative] }

/-- Embeds `MALService.getImdbId(malId)` from `services/mal.js` (the Redis-backed
variant). `pfx` is `CACHE_PREFIXES.MAL_IMDB` (defined in `sharedCache.js`,
outside the embedded sources), `gs` the `getShared` outcome oracle, `api` the
Jikan fetch-loop oracle. An invalid MAL ID returns `null` at once; a cache hit
is returned directly, with the stored `'null'` sentinel decoded back to
`null`; a cache miss — and equally a thrown cache-read error, which the
`try/catch` absorbs — proceeds to the API path. -/
def getImdbId (pfx : String) (gs : CacheReadOracle)
    (api : String → Option String) (malId : JsValue) :
    Except ErrorClassifier.JsError SvcResult :=
  match extractNumericId "mal" malId with
  | none => Except.ok {}
  | some nid =>
    let cacheKey := pfx ++ nid
    match gs cacheKey cacheTypeArg with
    | Except.ok (some cached) =>
      Except.ok
        { result := if cached = "null" then none else some cached,
          apiContacted := false,
          events := [.read cacheKey cacheTypeArg] }
    | Except.ok none => Except.ok (apiPath pfx nid api [.read cacheKey cacheTypeArg])
    | Except.error _ => Except.ok (apiPath pfx nid api [.read cacheKey cacheTypeArg])

end MALService

namespace AniDBService

/-- The `cacheType` argument every `getShared`/`setShared` call in
`services/anidb.js` passes: `StorageAdapter.CACHE_TYPES.PROVIDER_METADATA`. -/
def cacheTypeArg : Option String := StorageAdapter.CACHE_TYPES "PROVIDER_METADATA"

/-- The resolution path of `AniDBService.getImdbId` after a cache miss. `wd`
abstracts `queryWikidataAnidbToImdb` (which never throws and yields
`{imdbId, title}`), `cine` abstracts `searchCinemetaByTitle`. A truthy
Wikidata IMDB ID is cached with the positive TTL and returned; otherwise a
truthy title triggers the Cinemeta search, whose truthy result is likewise
cached positively; in every remaining case the `'null'` sentinel is cached
with the negative TTL and `null` is returned. -/
def apiPath (pfx nid : String)
    (wd : String → Option String × Option String)
    (cine : String → Option String) (evs : List CacheEvent) : SvcResult :=
  let cacheKey := pfx ++ nid
  let negative : SvcResult :=
    { result := none, apiContacted := true,
      events := evs ++ [.write cacheKey "null" cacheTypeArg .negative] }
  let positive : String → SvcResult := fun imdbId =>
    { result := some imdbId, apiContacted := true,
      events := evs ++ [.write cacheKey imdbId cacheTypeArg .positive] }
  match wd nid with
  | (imdbRes, titleRes) =>
    match jsTruthyStr imdbRes with
    | some imdbId => positive imdbId
    | none =>
      match jsTruthyStr titleRes with
      | some title =>
        match jsTruthyStr (cine title) with
        | some imdbId => positive imdbId
        | none => negative
      | none => negative

/-- Embeds `AniDBService.getImdbId(anidbId)` from `services/anidb.js`. `pfx` is
`CACHE_PREFIXES.ANIDB_IMDB`. The cache read mirrors the MAL service: a hit is
returned directly (sentinel decoded to `null`), and a miss or a thrown
cache-read error — absorbed by the `try/catch` — proceeds to the
Wikidata/Cinemeta resolution path. -/
def getImdbId (pfx : String) (gs : CacheReadOracle)
    (wd : String → Option String × Option String)
    (cine : String → Option String) (anidbId : JsValue) :
    Except ErrorClassifier.JsError SvcResult :=
  match extractNumericId "anidb" anidbId with
  | none => Except.ok {}
  | some nid =>
    let cacheKey := pfx ++ nid
    match gs cacheKey cacheTypeArg with
    | Except.ok (some cached) =>
      Except.ok
        { result := if cached = "null" then none else some cached,
          apiContacted := false,
          events := [.read cacheKey cacheTypeArg] }
    | Except.ok none => Except.ok (apiPath pfx nid wd cine [.read cacheKey cacheTypeArg])
    | Except.error _ => Except.ok (apiPath pfx nid wd cine [.read cacheKey cacheTypeArg])

end AniDBService

namespace MALServiceMem

/-!
The second module bundled into `services/anidb.js` is the legacy, in-memory
`MALService`: a `Map`-backed cache with per-entry `{data, timestamp, expiry}`
records, a 24-hour default expiry set in the constructor, and 10-minute
expiries attached to negative entries.
-/

/-- One `this.cache` record: `{ data, timestamp, expiry? }` (timestamps in
milliseconds; `expiry` present only on negative entries). -/
structure MemEntry where
  data : Option String
  timestamp : Int
  expiry : Option Int := none
deriving DecidableEq, Repr

/-- The `Map` backing `this.cache`, as an insertion-ordered association list. -/
abbrev MemCache : Type := List (String × MemEntry)

/-- Embeds `Map.prototype.get`. -/
def mapGet (m : MemCache) (k : String) : Option MemEntry :=
  (m.find? (fun p => p.1 = k)).map (fun p => p.2)

/-- Embeds `Map.prototype.set`: replace in place when the key exists, else append. -/
def mapSet (m : MemCache) (k : String) (v : MemEntry) : MemCache :=
  if (m.find? (fun p => p.1 = k)).isSome then
    m.map (fun p => if p.1 = k then (k, v) else p)
  else m ++ [(k, v)]

/-- Embeds `this.cacheExpiry = 24 * 60 * 60 * 1000` from the constructor. -/
def cacheExpiry : Int := 24 * 60 * 60 * 1000

/-- Embeds `cached.expiry || this.cacheExpiry`: a present, nonzero `expiry` wins;
an absent (or zero, hence falsy) one falls back to the 24-hour default. -/
def effectiveExpiry (e : MemEntry) : Int :=
  match e.expiry with
  | some n => if n = 0 then cacheExpiry else n
  | none => cacheExpiry

/-- The legacy `MALService.getImdbId(malId)`: check the `Map` first and return
a fresh entry's `data` (possibly `null`); on a miss or a stale entry run the
Jikan fetch loop (abstracted as `api`), caching a success with no per-entry
expiry (so the 24-hour default applies) and a failure or absent link as
`{data: null, expiry: 600000}`. Returns (result, new cache, api contacted). -/
def getImdbId (api : String → Option String) (st : MemCache) (now : Int)
    (malId : JsValue) : Option String × MemCache × Bool :=
  match extractNumericId "mal" malId with
  | none => (none, st, false)
  | some nid =>
    let cacheKey := "mal_imdb_" ++ nid
    let fetch : Option String × MemCache × Bool :=
      match api nid with
      | some imdbId =>
        (some imdbId, mapSet st cacheKey { data := some imdbId, timestamp := now }, true)
      | none =>
        (none,
          mapSet st cacheKey
            { data := none, timestamp := now, expiry := some (10 * 60 * 1000) },
          true)
    match mapGet st cacheKey with
    | some cached =>
      if now - cached.timestamp < effectiveExpiry cached then (cached.data, st, false)
      else fetch
    | none => fetch

end MALServiceMem

namespace DownloadCache

/-!
The download-cache module (`getCached` / `saveCached`). Its backing store is
the third-party `lru-cache` instance `subtitleDownloadCache`, configured with
`max: 5000`, `ttl: 10 minutes`, `maxSize: 500MB` and a `sizeCalculation` of
the content length. It is embedded as a key/value map carrying the one size
behaviour observable through an immediate set-then-get: `lru-cache` refuses to
store an entry whose calculated size exceeds `maxEntrySize` — which defaults
to `maxSize` — and deletes any previous entry under that key, while LRU/count
eviction on an accepted insert only ever displaces *other* entries. -/

/-- The backing store, most recently used first. -/
abbrev Store : Type := List (String × String)

/-- Embeds the `maxSize: 500 * 1024 * 1024` option of `subtitleDownloadCache`;
with no explicit `maxEntrySize`, `lru-cache` uses this as the per-entry bound
too. -/
def maxSize : Nat := 500 * 1024 * 1024

/-- Embeds the `sizeCalculation` option: `value ? value.length : 0`. -/
def sizeCalculation (value : String) : Nat :=
  if value = "" then 0 else value.length

/-- Embeds `lru-cache` `set`: an entry whose calculated size exceeds the
per-entry bound is not stored and any previous entry under the key is
deleted; otherwise the key is (re)inserted at the recency front. -/
def storeSet (st : Store) (k v : String) : Store :=
  if sizeCalculation v > maxSize then st.filter (fun p => !(p.1 = k : Bool))
  else (k, v) :: st.filter (fun p => !(p.1 = k : Bool))

/-- Embeds `lru-cache` `get`. -/
def storeGet (st : Store) (k : String) : Option String :=
  (st.find? (fun p => p.1 = k)).map (fun p => p.2)

/-- Embeds `getCached(fileId)`: look up under the `download:`-prefixed key. -/
def getCached (st : Store) (fileId : String) : Option String :=
  storeGet st ("download:" ++ fileId)

/-- Embeds `saveCached(fileId, content)`: reject falsy, non-string, or empty content
(returning `false` with the store untouched); otherwise store the content
under the prefixed key and return `true`. -/
def saveCached (st : Store) (fileId : String) (content : JsValue) :
    Bool × Store :=
  if jsFalsy content then (false, st)
  else
    match content with
    | .str s =>
      if s.length = 0 then (false, st)
      else (true, storeSet st ("download:" ++ fileId) s)
    | _ => (false, st)

/-- A concrete subtitle payload one character over the 500MB per-entry bound. -/
def oversizedContent : String := String.mk (List.replicate (maxSize + 1) 'a')

end DownloadCache

/-!
The SSRF URL guard bundled into `src/storage` (`validateUrlSync`,
`validateUrl`, `ssrfProtection`, `assertSafeUrl`). The WHATWG `URL` parser and
the `dns.lookup` resolver are platform facilities, passed in as oracles:
`parse` returns the components the guard reads (or `none` when `new URL`
throws), `dnso` returns the resolver outcome for a hostname (a thrown error or
timeout, or the record list).
-/

/-- The components of a parsed `URL` object that the guard inspects. -/
structure URLRec where
  protocol : String
  username : String := ""
  password : String := ""
  hostname : String
  port : String := ""
deriving DecidableEq, Repr

/-- A `new URL(·)` oracle: `none` models the constructor throwing. -/
abbrev UrlParser : Type := String → Option URLRec

/-- Outcome of `dns.lookup(hostname, {all: true})` raced against the timeout:
either a thrown error / timeout, or the list of records, each carrying the
optional `address` field the code reads with `record?.address`. -/
inductive DnsOutcome where
  | failure
  | results (records : List (Option String))
deriving DecidableEq, Repr

/-- A DNS oracle, per hostname. -/
abbrev DnsOracle : Type := String → DnsOutcome

/-- A `{valid, reason?, resolvedIp?}` validation result. -/
structure ValidationResult where
  valid : Bool
  reason : Option String := none
  resolvedIp : Option String := none
deriving DecidableEq, Repr

/-- JavaScript `parseInt(s, 10)`: optional leading whitespace and sign, then
the maximal digit run; `none` models `NaN`. -/
def parseIntJs (s : String) : Option Int :=
  let digitsVal : List Char → Option Nat := fun cs =>
    let ds := cs.takeWhile Char.isDigit
    if ds.isEmpty then none
    else some (ds.foldl (fun a c => a * 10 + (c.toNat - 48)) 0)
  match s.data.dropWhile Char.isWhitespace with
  | '-' :: rest => (digitsVal rest).map (fun n => -(n : Int))
  | '+' :: rest => (digitsVal rest).map (fun n => (n : Int))
  | cs => (digitsVal cs).map (fun n => (n : Int))

/-- The regex `^\d+\.\d+\.\d+\.\d+$`: four nonempty all-digit groups. -/
def isDottedQuad (s : String) : Bool :=
  let parts := strSplitOnChar s '.'
  parts.length = 4 && parts.all (fun p => !p.data.isEmpty && p.data.all Char.isDigit)

/-- Embeds `ipv4ToInt(ip)`: split on dots, require four octets parsed in range
0–255, and combine them big-endian (the JavaScript shift-and-or sequence with
the final `>>> 0` yields exactly this unsigned value). -/
def ipv4ToInt (ip : String) : Option Nat :=
  let parts := strSplitOnChar ip '.'
  if parts.length ≠ 4 then none
  else
    parts.foldl
      (fun acc p =>
        match acc, parseIntJs p with
        | some r, some octet =>
          if octet < 0 ∨ octet > 255 then none else some (r * 256 + octet.toNat)
        | _, _ => none)
      (some 0)

/-- Embeds `PRIVATE_IPV4_RANGES`: inclusive `[start, end]` ranges of blocked
addresses. -/
def PRIVATE_IPV4_RANGES : List (Nat × Nat) :=
  [ (0x7F000000, 0x7FFFFFFF)
  , (0x0A000000, 0x0AFFFFFF)
  , (0xAC100000, 0xAC1FFFFF)
  , (0xC0A80000, 0xC0A8FFFF)
  , (0xA9FE0000, 0xA9FEFFFF)
  , (0x00000000, 0x00FFFFFF)
  , (0xFFFFFFFF, 0xFFFFFFFF)
  , (0x64400000, 0x647FFFFF)
  , (0xC0000000, 0xC00000FF)
  , (0xC0000200, 0xC00002FF)
  , (0xC6336400, 0xC63364FF)
  , (0xCB007100, 0xCB0071FF)
  ]

/-- Embeds `isPrivateIPv4(ip)`. -/
def isPrivateIPv4 (ip : String) : Bool :=
  match ipv4ToInt ip with
  | none => false
  | some n => PRIVATE_IPV4_RANGES.any (fun r => decide (r.1 ≤ n ∧ n ≤ r.2))

/-- The regex `^::ffff:(\d+\.\d+\.\d+\.\d+)$` applied to an already-lowercased
address: the embedded IPv4 text, when the shape matches. -/
def ipv4MappedSuffix (s : String) : Option String :=
  if strStartsWith s "::ffff:" then
    let rest := String.mk (s.data.drop 7)
    if isDottedQuad rest then some rest else none
  else none

/-- Embeds `isPrivateIPv6(ip)`. -/
def isPrivateIPv6 (ip : String) : Bool :=
  let normalized := strLower ip
  if normalized = "::1" ∨ normalized = "0:0:0:0:0:0:0:1" then true
  else if strStartsWith normalized "fe80:" || strStartsWith normalized "fe8" ||
      strStartsWith normalized "fe9" || strStartsWith normalized "fea" ||
      strStartsWith normalized "feb" then true
  else if strStartsWith normalized "fc" || strStartsWith normalized "fd" then true
  else
    match ipv4MappedSuffix normalized with
    | some v4 => isPrivateIPv4 v4
    | none =>
      if normalized = "::" ∨ normalized = "0:0:0:0:0:0:0:0" then true
      else false

/-- Embeds `BLOCKED_IPS`. -/
def BLOCKED_IPS : List String :=
  ["169.254.169.254", "169.254.170.2", "168.63.129.16", "169.254.169.253"]

/-- Embeds `isPrivateIP(ip)`: a missing address is suspicious (blocked); otherwise
dispatch on the address shape, blocking unknown formats by default. -/
def isPrivateIP : Option String → Bool
  | none => true
  | some ip =>
    if ip = "" then true
    else
      let trimmed := jsTrim ip
      if BLOCKED_IPS.contains trimmed then true
      else if strContainsChar trimmed '.' && !strContainsChar trimmed ':' then
        isPrivateIPv4 trimmed
      else if strContainsChar trimmed ':' then isPrivateIPv6 trimmed
      else true

/-- Embeds `BLOCKED_HOSTNAMES`. -/
def BLOCKED_HOSTNAMES : List String :=
  [ "localhost"
  , "localhost.localdomain"
  , "metadata"
  , "metadata.google.internal"
  , "metadata.google.com"
  , "instance-data"
  , "kubernetes.default"
  , "kubernetes.default.svc"
  , "kubernetes.default.svc.cluster.local"
  ]

/-- The inner text of a `[...]`-bracketed hostname (`slice(1, -1)`). -/
def bracketInner (s : String) : String :=
  String.mk (s.data.drop 1).dropLast

/-- Embeds `isBlockedHostname(hostname)`. -/
def isBlockedHostname (hostname : String) : Bool :=
  if hostname = "" then true
  else
    let normalized := strLower (jsTrim hostname)
    if BLOCKED_HOSTNAMES.contains normalized then true
    else if isDottedQuad normalized then isPrivateIPv4 normalized
    else if strStartsWith normalized "[" && strEndsWith normalized "]" then
      isPrivateIPv6 (bracketInner normalized)
    else if strStartsWith normalized "localhost" ||
        strEndsWith normalized ".localhost" then true
    else if strEndsWith normalized ".internal" || strEndsWith normalized ".local" ||
        strEndsWith normalized ".lan" || strEndsWith normalized ".home" ||
        strEndsWith normalized ".corp" || strEndsWith normalized ".intranet" then true
    else false

/-- The blocked internal service ports. -/
def INTERNAL_PORTS : List Int :=
  [22, 23, 25, 135, 139, 445, 3306, 5432, 6379, 27017, 11211, 9200, 9300]

/-- Embeds `validateUrlSync(url)`: protocol, userinfo, hostname and port checks on
the parsed URL; no DNS. -/
def validateUrlSync (parse : UrlParser) (url : JsValue) : ValidationResult :=
  match url with
  | .str s =>
    if s = "" then { valid := false, reason := some "missing_url" }
    else
      match parse (jsTrim s) with
      | none => { valid := false, reason := some "invalid_url" }
      | some p =>
        if !(p.protocol = "http:" || p.protocol = "https:") then
          { valid := false, reason := some "forbidden_protocol" }
        else if !(p.username = "") || !(p.password = "") then
          { valid := false, reason := some "userinfo_not_allowed" }
        else if p.hostname = "" then
          { valid := false, reason := some "missing_hostname" }
        else if isBlockedHostname p.hostname then
          { valid := false, reason := some "blocked_hostname" }
        else
          let port := if !(p.port = "") then p.port
            else if p.protocol = "https:" then "443" else "80"
          match parseIntJs port with
          | some portNum =>
            if INTERNAL_PORTS.contains portNum then
              { valid := false, reason := some "internal_port" }
            else { valid := true }
          | none => { valid := true }
  | _ => { valid := false, reason := some "missing_url" }

/-- Options of `validateUrl`, with the source defaults: a 5-second DNS
timeout (kept for fidelity; a timeout surfaces as `DnsOutcome.failure`),
`allowDnsFailure = false`, and at most 8 DNS records considered. -/
structure ValidateOptions where
  dnsTimeout : Option Int := none
  allowDnsFailure : Bool := false
  maxResults : Option Nat := none
deriving DecidableEq, Repr

/-- Embeds `limited[0]?.address || null`. -/
def firstAddress (records : List (Option String)) : Option String :=
  match records.head? with
  | some (some a) => if a = "" then none else some a
  | _ => none

/-- Embeds `validateUrl(url, options)`: the synchronous checks first; then an IPv4 or
bracketed-IPv6 literal hostname is checked directly, and any other hostname is
resolved through DNS, rejecting private records — and, unless
`allowDnsFailure` is set, rejecting a failed lookup (`dns_lookup_failed`) or
an empty record list (`dns_no_records`). -/
def validateUrl (parse : UrlParser) (dnso : DnsOracle) (url : JsValue)
    (options : ValidateOptions) : ValidationResult :=
  let syncResult := validateUrlSync parse url
  if !syncResult.valid then syncResult
  else
    match url with
    | .str s =>
      match parse (jsTrim s) with
      | none => { valid := false, reason := some "invalid_url" }
      | some p =>
        let hostname := p.hostname
        let maxResults := options.maxResults.getD 8
        if isDottedQuad hostname then
          if isPrivateIP (some hostname) then
            { valid := false, reason := some "private_ip", resolvedIp := some hostname }
          else { valid := true, resolvedIp := some hostname }
        else if strStartsWith hostname "[" && strEndsWith hostname "]" then
          let ipv6 := bracketInner hostname
          if isPrivateIPv6 ipv6 then
            { valid := false, reason := some "private_ip", resolvedIp := some ipv6 }
          else { valid := true, resolvedIp := some ipv6 }
        else
          match dnso hostname with
          | .failure =>
            if options.allowDnsFailure then { valid := true }
            else { valid := false, reason := some "dns_lookup_failed" }
          | .results records =>
            let limited := records.take maxResults
            if limited.isEmpty then
              if options.allowDnsFailure then { valid := true }
              else { valid := false, reason := some "dns_no_records" }
            else
              match limited.find? (fun rec => isPrivateIP rec) with
              | some rec =>
                { valid := false, reason := some "private_ip", resolvedIp := rec }
              | none => { valid := true, resolvedIp := firstAddress limited }
    | _ => { valid := false, reason := some "missing_url" }

/-- Options of `assertSafeUrl`, with the source defaults. -/
structure AssertOptions where
  resolveDns : Bool := true
  allowDnsFailure : Bool := false
deriving DecidableEq, Repr

/-- The error object `assertSafeUrl` throws for a blocked URL. -/
structure SsrfError where
  message : String
  code : String
  reason : Option String
  url : JsValue
deriving DecidableEq, Repr

/-- The validation `assertSafeUrl` delegates to: `validateUrl` (passing only
`allowDnsFailure` through) when `resolveDns` is set, `validateUrlSync`
otherwise. -/
def assertValidation (parse : UrlParser) (dnso : DnsOracle) (url : JsValue)
    (options : AssertOptions) : ValidationResult :=
  if options.resolveDns then
    validateUrl parse dnso url { allowDnsFailure := options.allowDnsFailure }
  else validateUrlSync parse url

/-- Embeds `assertSafeUrl(url, options)`: run the validation; throw an error with
`code = 'SSRF_BLOCKED'` carrying the failure reason when it is invalid, and
return the result unchanged when it is valid. -/
def assertSafeUrl (parse : UrlParser) (dnso : DnsOracle) (url : JsValue)
    (options : AssertOptions) : Except SsrfError ValidationResult :=
  let result := assertValidation parse dnso url options
  if result.valid then Except.ok result
  else
    Except.error
      { message := "Blocked request to internal/private URL: " ++
          (result.reason.getD "undefined"),
        code := "SSRF_BLOCKED", reason := result.reason, url := url }

/-!
## Theorems for the claims
-/

/-- C1 counterexample: a `TypeError` — for which `isProgrammingBug` is true —
passed to `handleCaughtError` with default options is logged at error level
but is absorbed: the call returns the fallback value `null` instead of
rethrowing, because `rethrowBugs` defaults to `false`. -/
theorem C1_counterexample :
    ErrorClassifier.isProgrammingBug
      (some { ctor := .typeError, name := "TypeError",
              message := "x is not a function" }) = true ∧
    ErrorClassifier.handleCaughtError
      { ctor := .typeError, name := "TypeError", message := "x is not a function" }
      "[SharedCache] GET" {} =
      (.errorL, Except.ok JsValue.nullv) :=
  ⟨rfl, rfl⟩

/-- C1 (amended): a programming bug handed to `handleCaughtError` is always
logged at error level, and is rethrown exactly when `options.rethrowBugs` is
true; otherwise — in particular with the default options, where `rethrowBugs`
is false — the fallback value is returned instead. -/
theorem C1_bug_rethrow_matches_option (e : ErrorClassifier.JsError)
    (context : String) (options : ErrorClassifier.HandleOptions)
    (h : ErrorClassifier.isProgrammingBug (some e) = true) :
    ErrorClassifier.handleCaughtError e context options =
      (.errorL,
        if options.rethrowBugs then Except.error e
        else Except.ok options.fallbackValue) := by
  simp [ErrorClassifier.handleCaughtError, h]

/-- C1 witness: the amended theorem applied to a concrete `TypeError` with
`rethrowBugs` opted in, where the error is rethrown. -/
theorem C1_witness :
    ErrorClassifier.handleCaughtError
      { ctor := .typeError, name := "TypeError", message := "y is not a function" }
      "[SharedCache] SET" { rethrowBugs := true } =
      (.errorL,
        Except.error
          { ctor := .typeError, name := "TypeError",
            message := "y is not a function" }) := by
  have h := C1_bug_rethrow_matches_option
    { ctor := .typeError, name := "TypeError", message := "y is not a function" }
    "[SharedCache] SET" { rethrowBugs := true } (by rfl)
  simpa using h

/-- C2 counterexample: the concrete adapter overriding none of the contract
operations constructs successfully — no error is raised at construction time —
and the missing `get` operation is discovered only at first invocation, which
throws the base class's "must be implemented" error. -/
theorem C2_counterexample :
    ConcreteAdapter.construct ⟨fun _ => none⟩ = Except.ok () ∧
    ConcreteAdapter.invoke ⟨fun _ => none⟩ .getM =
      Except.error (StorageAdapter.unimplementedError .getM) :=
  ⟨rfl, rfl⟩

/-- C2 (amended): only instantiating the abstract `StorageAdapter` class
directly fails at construction, with a `TypeError`; a concrete adapter that
does not implement a contract operation still constructs successfully, and the
missing operation surfaces only later, as a runtime "Method X() must be
implemented" error thrown when that method is first invoked. -/
theorem C2_missing_method_found_at_invocation (a : ConcreteAdapter)
    (m : StorageAdapter.AdapterMethod) (h : a.overrides m = none) :
    StorageAdapter.construct true =
      Except.error
        { ctor := .typeError, name := "TypeError",
          message := "Cannot instantiate abstract StorageAdapter class" } ∧
    ConcreteAdapter.construct a = Except.ok () ∧
    ConcreteAdapter.invoke a m =
      Except.error (StorageAdapter.unimplementedError m) := by
  refine ⟨rfl, rfl, ?_⟩
  simp [ConcreteAdapter.invoke, h, StorageAdapter.defaultImpl]

/-- C2 witness: the amended theorem at the adapter with no overrides and the
`set` operation. -/
theorem C2_witness :
    StorageAdapter.construct true =
      Except.error
        { ctor := .typeError, name := "TypeError",
          message := "Cannot instantiate abstract StorageAdapter class" } ∧
    ConcreteAdapter.construct ⟨fun _ => none⟩ = Except.ok () ∧
    ConcreteAdapter.invoke ⟨fun _ => none⟩ .setM =
      Except.error (StorageAdapter.unimplementedError .setM) :=
  C2_missing_method_found_at_invocation ⟨fun _ => none⟩ .setM rfl

/-- C3: the per-type defaults match the data model — `TRANSLATION` and `SYNC`
have no default expiry, `SESSION` has neither a default expiry nor a size
ceiling, `BYPASS` has a 12-hour default TTL, `PARTIAL` a 1-hour default TTL
strictly shorter than `BYPASS`'s, and every cache type other than `SESSION`
has a finite positive size ceiling. -/
theorem C3_default_ttl_and_size_limits :
    StorageAdapter.DEFAULT_TTL "translation" = some none ∧
    StorageAdapter.DEFAULT_TTL "sync" = some none ∧
    StorageAdapter.DEFAULT_TTL "session" = some none ∧
    StorageAdapter.SIZE_LIMITS "session" = some none ∧
    (∃ b p : Nat,
      StorageAdapter.DEFAULT_TTL "bypass" = some (some b) ∧ b = 12 * 60 * 60 ∧
      StorageAdapter.DEFAULT_TTL "partial" = some (some p) ∧ p = 60 * 60 ∧
      p < b) ∧
    (∀ t, t ∈ (["translation", "bypass", "partial", "sync"] : List String) →
      ∃ n : Nat, 0 < n ∧ StorageAdapter.SIZE_LIMITS t = some (some n)) := by
  refine ⟨rfl, rfl, rfl, rfl, ⟨12 * 60 * 60, 60 * 60, rfl, rfl, rfl, rfl, by norm_num⟩, ?_⟩
  intro t ht
  simp only [List.mem_cons, List.not_mem_nil, or_false] at ht
  rcases ht with rfl | rfl | rfl | rfl <;> exact ⟨_, by norm_num, rfl⟩

/-- C3 witness: the size-ceiling clause of the theorem at the `translation`
cache type. -/
theorem C3_witness :
    ∃ n : Nat, 0 < n ∧ StorageAdapter.SIZE_LIMITS "translation" = some (some n) :=
  C3_default_ttl_and_size_limits.2.2.2.2.2 "translation" (by simp)

/-- Concrete URL-parser oracle used by witnesses: parses the one well-formed
public URL the witnesses exercise. -/
def parseExample : UrlParser := fun t =>
  if t = "http://example.com" then
    some { protocol := "http:", hostname := "example.com" }
  else none

/-- Concrete DNS oracle used by witnesses: every lookup fails. -/
def dnsFail : DnsOracle := fun _ => DnsOutcome.failure

/-- C4: `assertSafeUrl` raises exactly when the delegated validation
(`validateUrl`, or `validateUrlSync` when `resolveDns` is false) is invalid:
an invalid result becomes a thrown error with code `SSRF_BLOCKED` carrying the
failure reason, a valid result is returned unchanged without throwing, and any
thrown error implies the validation was invalid. -/
theorem C4_assert_raises_iff_invalid (parse : UrlParser) (dnso : DnsOracle)
    (url : JsValue) (options : AssertOptions) :
    ((assertValidation parse dnso url options).valid = false →
      assertSafeUrl parse dnso url options =
        Except.error
          { message := "Blocked request to internal/private URL: " ++
              ((assertValidation parse dnso url options).reason.getD "undefined"),
            code := "SSRF_BLOCKED",
            reason := (assertValidation parse dnso url options).reason,
            url := url }) ∧
    ((assertValidation parse dnso url options).valid = true →
      assertSafeUrl parse dnso url options =
        Except.ok (assertValidation parse dnso url options)) ∧
    (∀ e, assertSafeUrl parse dnso url options = Except.error e →
      e.code = "SSRF_BLOCKED" ∧ (assertValidation parse dnso url options).valid = false) := by
  refine ⟨fun hfalse => ?_, fun htrue => ?_, fun e he => ?_⟩
  · simp [assertSafeUrl, hfalse]
  · simp [assertSafeUrl, htrue]
  · by_cases hv : (assertValidation parse dnso url options).valid = true
    · simp [assertSafeUrl, hv] at he
    · have hf : (assertValidation parse dnso url options).valid = false := by
        simpa using hv
      refine ⟨?_, hf⟩
      simp [assertSafeUrl, hf] at he
      simp [← he]

/-- C4 witness: the theorem at a concrete URL whose DNS lookup fails,
producing the `SSRF_BLOCKED` error. -/
theorem C4_witness :
    assertSafeUrl parseExample dnsFail (.str "http://example.com") {} =
      Except.error
        { message := "Blocked request to internal/private URL: dns_lookup_failed",
          code := "SSRF_BLOCKED", reason := some "dns_lookup_failed",
          url := .str "http://example.com" } := by
  have h := (C4_assert_raises_iff_invalid parseExample dnsFail
    (.str "http://example.com") {}).1 (by rfl)
  simpa using h

/-- C5: cache reads in the ID-mapping services are fail-open — when
`getShared` throws, `MALService.getImdbId` and `AniDBService.getImdbId`
return normally (no error reaches the caller), behave exactly as on a cache
miss, and proceed to the external API path. -/
theorem C5_cache_read_fail_open :
    (∀ (pfx : String) (gs : CacheReadOracle) (api : String → Option String)
        (malId : JsValue) (nid : String) (err : ErrorClassifier.JsError),
      extractNumericId "mal" malId = some nid →
      gs (pfx ++ nid) MALService.cacheTypeArg = Except.error err →
      MALService.getImdbId pfx gs api malId =
        MALService.getImdbId pfx (fun _ _ => Except.ok none) api malId ∧
      ∃ r, MALService.getImdbId pfx gs api malId = Except.ok r ∧
        r.apiContacted = true) ∧
    (∀ (pfx : String) (gs : CacheReadOracle)
        (wd : String → Option String × Option String)
        (cine : String → Option String)
        (anidbId : JsValue) (nid : String) (err : ErrorClassifier.JsError),
      extractNumericId "anidb" anidbId = some nid →
      gs (pfx ++ nid) AniDBService.cacheTypeArg = Except.error err →
      AniDBService.getImdbId pfx gs wd cine anidbId =
        AniDBService.getImdbId pfx (fun _ _ => Except.ok none) wd cine anidbId ∧
      ∃ r, AniDBService.getImdbId pfx gs wd cine anidbId = Except.ok r ∧
        r.apiContacted = true) := by
  constructor
  · intro pfx gs api malId nid err hn herr
    refine ⟨by simp [MALService.getImdbId, hn, herr], ?_⟩
    refine ⟨MALService.apiPath pfx nid api
      [.read (pfx ++ nid) MALService.cacheTypeArg], ?_, ?_⟩
    · simp [MALService.getImdbId, hn, herr]
    · cases h : api nid <;> simp [MALService.apiPath, h]
  · intro pfx gs wd cine anidbId nid err hn herr
    refine ⟨by simp [AniDBService.getImdbId, hn, herr], ?_⟩
    refine ⟨AniDBService.apiPath pfx nid wd cine
      [.read (pfx ++ nid) AniDBService.cacheTypeArg], ?_, ?_⟩
    · simp [AniDBService.getImdbId, hn, herr]
    · rcases hwd : wd nid with ⟨ia, ta⟩
      cases hia : jsTruthyStr ia
      · cases hta : jsTruthyStr ta
        · simp [AniDBService.apiPath, hwd, hia, hta]
        · rename_i t
          cases hc : jsTruthyStr (cine t) <;>
            simp [AniDBService.apiPath, hwd, hia, hta, hc]
      · simp [AniDBService.apiPath, hwd, hia]

/-- C5 witness: both conjuncts of the theorem at concrete oracles whose cache
read throws: each service runs identically to the cache-miss run. -/
theorem C5_witness :
    (MALService.getImdbId "mal_imdb:" (fun _ _ => Except.error {})
        (fun _ => none) (.str "mal:21") =
      MALService.getImdbId "mal_imdb:" (fun _ _ => Except.ok none)
        (fun _ => none) (.str "mal:21")) ∧
    (AniDBService.getImdbId "anidb_imdb:" (fun _ _ => Except.error {})
        (fun _ => (none, none)) (fun _ => none) (.str "anidb:69") =
      AniDBService.getImdbId "anidb_imdb:" (fun _ _ => Except.ok none)
        (fun _ => (none, none)) (fun _ => none) (.str "anidb:69")) :=
  ⟨(C5_cache_read_fail_open.1 "mal_imdb:" (fun _ _ => Except.error {})
      (fun _ => none) (.str "mal:21") "21" {} (by rfl) (by rfl)).1,
    (C5_cache_read_fail_open.2 "anidb_imdb:" (fun _ _ => Except.error {})
      (fun _ => (none, none)) (fun _ => none) (.str "anidb:69") "69" {}
      (by rfl) (by rfl)).1⟩

/-- Writing a key absent from the legacy in-memory cache appends it. -/
theorem mapSet_of_absent (m : MALServiceMem.MemCache) (k : String)
    (v : MALServiceMem.MemEntry) (h : MALServiceMem.mapGet m k = none) :
    MALServiceMem.mapSet m k v = m ++ [(k, v)] := by
  have hf : m.find? (fun p => p.1 = k) = none := by
    simpa [MALServiceMem.mapGet] using h
  simp [MALServiceMem.mapSet, hf]

/-- Reading back a key appended to the legacy in-memory cache, when it was
absent before, yields the appended entry. -/
theorem mapGet_append_single (m : MALServiceMem.MemCache) (k : String)
    (v : MALServiceMem.MemEntry) (h : MALServiceMem.mapGet m k = none) :
    MALServiceMem.mapGet (m ++ [(k, v)]) k = some v := by
  have hf : m.find? (fun p => p.1 = k) = none := by
    simpa [MALServiceMem.mapGet] using h
  induction m with
  | nil => simp [MALServiceMem.mapGet]
  | cons hd tl ih =>
    simp only [List.find?] at hf
    rcases hfhd : (decide (hd.1 = k)) with _ | _
    · rw [hfhd] at hf
      have := ih (by simpa [MALServiceMem.mapGet] using hf) hf
      simpa [MALServiceMem.mapGet, List.find?, hfhd] using this
    · rw [hfhd] at hf
      exact absurd hf (by simp)

/-- C6: in the legacy in-memory MAL cache, a failed or absent lookup is cached
as a negative entry with a 10-minute expiry while a successful mapping is
cached with the 24-hour default expiry, and the negative TTL is strictly
shorter — so after the same write instant, a lookup past the 10-minute mark
re-contacts the API for the cached miss while the cached hit is still served
from memory (for any time still under its 24-hour expiry). -/
theorem C6_negative_ttl_shorter_than_positive
    (api₁ api₂ api₃ : String → Option String) (st : MALServiceMem.MemCache)
    (t tr : Int) (malId : JsValue) (nid imdb : String)
    (hn : extractNumericId "mal" malId = some nid)
    (h0 : MALServiceMem.mapGet st ("mal_imdb_" ++ nid) = none)
    (hneg : api₁ nid = none)
    (hpos : api₂ nid = some imdb)
    (hretry : 10 * 60 * 1000 ≤ tr - t)
    (hwithin : tr - t < 24 * 60 * 60 * 1000) :
    MALServiceMem.mapGet (MALServiceMem.getImdbId api₁ st t malId).2.1
        ("mal_imdb_" ++ nid) =
      some { data := none, timestamp := t, expiry := some (10 * 60 * 1000) } ∧
    MALServiceMem.mapGet (MALServiceMem.getImdbId api₂ st t malId).2.1
        ("mal_imdb_" ++ nid) =
      some { data := some imdb, timestamp := t } ∧
    MALServiceMem.effectiveExpiry
        { data := none, timestamp := t, expiry := some (10 * 60 * 1000) } =
      10 * 60 * 1000 ∧
    MALServiceMem.effectiveExpiry { data := some imdb, timestamp := t } =
      24 * 60 * 60 * 1000 ∧
    (10 * 60 * 1000 : Int) < 24 * 60 * 60 * 1000 ∧
    (MALServiceMem.getImdbId api₃
        (MALServiceMem.getImdbId api₁ st t malId).2.1 tr malId).2.2 = true ∧
    MALServiceMem.getImdbId api₃
        (MALServiceMem.getImdbId api₂ st t malId).2.1 tr malId =
      (some imdb, (MALServiceMem.getImdbId api₂ st t malId).2.1, false) := by
  have hneg1 : MALServiceMem.getImdbId api₁ st t malId =
      (none,
        MALServiceMem.mapSet st ("mal_imdb_" ++ nid)
          { data := none, timestamp := t, expiry := some (10 * 60 * 1000) },
        true) := by
    simp [MALServiceMem.getImdbId, hn, h0, hneg]
  have hpos1 : MALServiceMem.getImdbId api₂ st t malId =
      (some imdb,
        MALServiceMem.mapSet st ("mal_imdb_" ++ nid)
          { data := some imdb, timestamp := t },
        true) := by
    simp [MALServiceMem.getImdbId, hn, h0, hpos]
  have hgNeg' : MALServiceMem.mapGet
      (MALServiceMem.mapSet st ("mal_imdb_" ++ nid)
        { data := none, timestamp := t, expiry := some (10 * 60 * 1000) })
      ("mal_imdb_" ++ nid) =
      some { data := none, timestamp := t, expiry := some (10 * 60 * 1000) } := by
    rw [mapSet_of_absent _ _ _ h0]
    exact mapGet_append_single _ _ _ h0
  have hgPos' : MALServiceMem.mapGet
      (MALServiceMem.mapSet st ("mal_imdb_" ++ nid)
        { data := some imdb, timestamp := t })
      ("mal_imdb_" ++ nid) =
      some { data := some imdb, timestamp := t } := by
    rw [mapSet_of_absent _ _ _ h0]
    exact mapGet_append_single _ _ _ h0
  have heNeg : MALServiceMem.effectiveExpiry
      { data := none, timestamp := t, expiry := some (10 * 60 * 1000) } =
      10 * 60 * 1000 := by
    simp [MALServiceMem.effectiveExpiry]
  have hePos : MALServiceMem.effectiveExpiry
      { data := some imdb, timestamp := t } = 24 * 60 * 60 * 1000 := by
    simp [MALServiceMem.effectiveExpiry, MALServiceMem.cacheExpiry]
  have hgNegN : MALServiceMem.mapGet
      (MALServiceMem.mapSet st ("mal_imdb_" ++ nid)
        { data := none, timestamp := t, expiry := some 600000 })
      ("mal_imdb_" ++ nid) =
      some { data := none, timestamp := t, expiry := some 600000 } := by
    rw [mapSet_of_absent _ _ _ h0]
    exact mapGet_append_single _ _ _ h0
  have heNegN : MALServiceMem.effectiveExpiry
      { data := none, timestamp := t, expiry := some 600000 } = 600000 := by
    simp [MALServiceMem.effectiveExpiry]
  have hePosN : MALServiceMem.effectiveExpiry
      { data := some imdb, timestamp := t } = 86400000 := by
    norm_num [MALServiceMem.effectiveExpiry, MALServiceMem.cacheExpiry]
  refine ⟨by rw [hneg1]; exact hgNeg', by rw [hpos1]; exact hgPos',
    heNeg, hePos, by norm_num, ?_, ?_⟩
  · have hstale : ¬ (tr - t < (600000 : Int)) := by omega
    rw [hneg1]
    cases h3 : api₃ nid <;>
      simp [MALServiceMem.getImdbId, hn, hgNegN, heNegN, hstale, h3]
  · have hfresh : tr - t < (86400000 : Int) := by omega
    rw [hpos1]
    simp [MALServiceMem.getImdbId, hn, hgPos', hePosN, hfresh]

/-- C6 witness: the theorem at a concrete MAL ID with a miss and a hit both
written at time 0 and re-read at the 10-minute mark. -/
theorem C6_witness :
    (MALServiceMem.getImdbId (fun _ => none)
        (MALServiceMem.getImdbId (fun _ => none) [] 0 (.str "mal:21")).2.1
        600000 (.str "mal:21")).2.2 = true ∧
    MALServiceMem.getImdbId (fun _ => none)
        (MALServiceMem.getImdbId (fun _ => some "tt0112718") [] 0 (.str "mal:21")).2.1
        600000 (.str "mal:21") =
      (some "tt0112718",
        (MALServiceMem.getImdbId (fun _ => some "tt0112718") [] 0 (.str "mal:21")).2.1,
        false) := by
  have h := C6_negative_ttl_shorter_than_positive (fun _ => none)
    (fun _ => some "tt0112718") (fun _ => none) [] 0 600000 (.str "mal:21")
    "21" "tt0112718" (by decide) (by decide) rfl rfl (by norm_num) (by norm_num)
  exact ⟨h.2.2.2.2.2.1, h.2.2.2.2.2.2⟩

/-- C7: a cached negative sentinel (`'null'`) is decoded back to `null`
transparently — when `getShared` returns the sentinel for the key,
`MALService.getImdbId` returns `null` without contacting the external API,
having performed exactly the one cache read. -/
theorem C7_sentinel_decoded_to_null (pfx : String) (gs : CacheReadOracle)
    (api : String → Option String) (malId : JsValue) (nid : String)
    (hn : extractNumericId "mal" malId = some nid)
    (hc : gs (pfx ++ nid) MALService.cacheTypeArg = Except.ok (some "null")) :
    MALService.getImdbId pfx gs api malId =
      Except.ok
        { result := none, apiContacted := false,
          events := [.read (pfx ++ nid) MALService.cacheTypeArg] } := by
  simp [MALService.getImdbId, hn, hc]

/-- C7 witness: the theorem at a concrete MAL ID with the sentinel cached. -/
theorem C7_witness :
    MALService.getImdbId "mal_imdb:" (fun _ _ => Except.ok (some "null"))
      (fun _ => some "tt0112718") (.str "mal:21") =
      Except.ok
        { result := none, apiContacted := false,
          events := [.read "mal_imdb:21" MALService.cacheTypeArg] } := by
  have h := C7_sentinel_decoded_to_null "mal_imdb:" (fun _ _ => Except.ok (some "null"))
    (fun _ => some "tt0112718") (.str "mal:21") "21" (by rfl) (by rfl)
  simpa using h

/-- Looking up a key in a store from which every entry under that key has
just been filtered out yields nothing. -/
theorem storeGet_erase_eq_none (st : DownloadCache.Store) (k : String) :
    DownloadCache.storeGet (st.filter (fun p => !(p.1 = k : Bool))) k = none := by
  unfold DownloadCache.storeGet
  rw [Option.map_eq_none', List.find?_eq_none]
  intro x hx
  have hne := (List.mem_filter.mp hx).2
  simpa using hne

/-- C10 counterexample: content one character over the 500MB per-entry bound
is a non-empty string, so `saveCached` returns `true` — yet the store refuses
it, and an immediate `getCached` for the same file ID misses instead of
returning the content. -/
theorem C10_counterexample :
    (DownloadCache.saveCached [] "file1"
      (JsValue.str DownloadCache.oversizedContent)).1 = true ∧
    DownloadCache.getCached
      (DownloadCache.saveCached [] "file1"
        (JsValue.str DownloadCache.oversizedContent)).2 "file1" = none := by
  have hlen : DownloadCache.oversizedContent.length = DownloadCache.maxSize + 1 := by
    simp [DownloadCache.oversizedContent, String.length]
  have hne : DownloadCache.oversizedContent ≠ "" := by
    intro h
    rw [h] at hlen
    simp [String.length] at hlen
  have hover : DownloadCache.sizeCalculation DownloadCache.oversizedContent >
      DownloadCache.maxSize := by
    rw [DownloadCache.sizeCalculation, if_neg hne, hlen]
    omega
  constructor
  · simp [DownloadCache.saveCached, jsFalsy, hne, hlen]
  · simp [DownloadCache.saveCached, DownloadCache.getCached, DownloadCache.storeSet,
      DownloadCache.storeGet, jsFalsy, hne, hlen, hover]

/-- C10 (amended): `saveCached` returns `false` and leaves the store unchanged
whenever the content is missing, not a string, or empty; for a non-empty
string it returns `true`, and an immediate `getCached` for the same file ID
returns exactly that content when its length is within the store's 500MB
per-entry bound — content over the bound is refused by the store (any
previous entry under the key is dropped), so the immediate `getCached` misses
even though `saveCached` reported `true`. -/
theorem C10_saveCached_validation_and_bounded_roundtrip (st : DownloadCache.Store)
    (fileId : String) (content : JsValue) :
    ((∀ s, content = JsValue.str s → s = "") →
      DownloadCache.saveCached st fileId content = (false, st)) ∧
    (∀ s, content = JsValue.str s → s ≠ "" →
      (DownloadCache.saveCached st fileId content).1 = true ∧
      (s.length ≤ DownloadCache.maxSize →
        DownloadCache.getCached (DownloadCache.saveCached st fileId content).2 fileId =
          some s) ∧
      (DownloadCache.maxSize < s.length →
        DownloadCache.getCached (DownloadCache.saveCached st fileId content).2 fileId =
          none)) := by
  constructor
  · intro h
    cases content with
    | str s =>
      have hs : s = "" := h s rfl
      subst hs
      simp [DownloadCache.saveCached, jsFalsy]
    | _ => simp_all [DownloadCache.saveCached, jsFalsy]
  · rintro s rfl hs
    have hlen : s.length ≠ 0 := by
      intro h0
      exact hs (String.ext (List.length_eq_zero.mp h0))
    have hsz : DownloadCache.sizeCalculation s = s.length := by
      rw [DownloadCache.sizeCalculation, if_neg hs]
    refine ⟨by simp [DownloadCache.saveCached, jsFalsy, hs, hlen], ?_, ?_⟩
    · intro hle
      have hfits : ¬ (DownloadCache.sizeCalculation s > DownloadCache.maxSize) := by
        rw [hsz]
        omega
      simp [DownloadCache.saveCached, DownloadCache.getCached, DownloadCache.storeSet,
        DownloadCache.storeGet, jsFalsy, hs, hlen, hfits]
    · intro hgt
      have hover : DownloadCache.sizeCalculation s > DownloadCache.maxSize := by
        rw [hsz]
        omega
      simp [DownloadCache.saveCached, DownloadCache.getCached,
        DownloadCache.storeSet, jsFalsy, hs, hlen, hover, storeGet_erase_eq_none]

/-- C10 witness: the amended theorem at a concrete non-string content
(rejected, store untouched) and at a concrete non-empty string within the
bound (stored and read back). -/
theorem C10_witness :
    DownloadCache.saveCached [] "file1" (JsValue.num 5) = (false, []) ∧
    ((DownloadCache.saveCached [] "file1" (JsValue.str "1\n00:00:01,000")).1 = true ∧
      DownloadCache.getCached
        (DownloadCache.saveCached [] "file1" (JsValue.str "1\n00:00:01,000")).2 "file1" =
        some "1\n00:00:01,000") :=
  ⟨(C10_saveCached_validation_and_bounded_roundtrip [] "file1" (JsValue.num 5)).1
      (by intro s h; cases h),
    ((C10_saveCached_validation_and_bounded_roundtrip [] "file1"
        (JsValue.str "1\n00:00:01,000")).2 "1\n00:00:01,000" rfl (by decide)).1,
    (((C10_saveCached_validation_and_bounded_roundtrip [] "file1"
        (JsValue.str "1\n00:00:01,000")).2 "1\n00:00:01,000" rfl (by decide)).2.1
      (by decide))⟩

/-- A DNS outcome on which validation cannot complete: the lookup threw or
timed out, or it yielded no records once truncated to `maxResults`. -/
def dnsFailsOrEmpty (d : DnsOutcome) (maxResults : Nat) : Bool :=
  match d with
  | .failure => true
  | .results records => (records.take maxResults).isEmpty

/-- C8: the guard is fail-closed — with `allowDnsFailure` false, whenever the
hostname is not an IP literal (so DNS is actually consulted) and its
resolution fails, times out, or yields no records, `validateUrl` returns an
invalid result rather than treating the URL as safe. -/
theorem C8_validateUrl_fail_closed (parse : UrlParser) (dnso : DnsOracle)
    (s : String) (options : ValidateOptions) (p : URLRec)
    (hp : parse (jsTrim s) = some p)
    (h4 : isDottedQuad p.hostname = false)
    (h6 : (strStartsWith p.hostname "[" && strEndsWith p.hostname "]") = false)
    (hdns : dnsFailsOrEmpty (dnso p.hostname) (options.maxResults.getD 8) = true)
    (hof : options.allowDnsFailure = false) :
    (validateUrl parse dnso (.str s) options).valid = false := by
  by_cases hsync : (validateUrlSync parse (.str s)).valid = true
  · cases hd : dnso p.hostname with
    | failure => simp [validateUrl, hsync, hp, h4, h6, hd, hof]
    | results records =>
      have hemp : (records.take (options.maxResults.getD 8)).isEmpty = true := by
        simpa [dnsFailsOrEmpty, hd] using hdns
      simp [validateUrl, hsync, hp, h4, h6, hd, hof, hemp]
  · have hf : (validateUrlSync parse (.str s)).valid = false := by
      simpa using hsync
    simp [validateUrl, hf]

/-- C8 witness: the theorem at a concrete public URL whose every DNS lookup
fails, with the default options. -/
theorem C8_witness :
    (validateUrl parseExample dnsFail (.str "http://example.com") {}).valid = false :=
  C8_validateUrl_fail_closed parseExample dnsFail "http://example.com" {}
    { protocol := "http:", hostname := "example.com" }
    (by decide) (by decide) (by decide) (by decide) rfl

/-- Every event in a one-write extension of an all-`none` event list also
carries a `none` cache type. -/
theorem events_append_none (evs : List CacheEvent) (w : CacheEvent)
    (h : ∀ e ∈ evs, CacheEvent.cacheTypeOf e = none)
    (hw : CacheEvent.cacheTypeOf w = none) :
    ∀ e ∈ evs ++ [w], CacheEvent.cacheTypeOf e = none := by
  intro e he
  rcases List.mem_append.mp he with h1 | h1
  · exact h e h1
  · simp only [List.mem_singleton] at h1
    subst h1
    exact hw

/-- All cache events of the MAL API path carry a `none` cache type, given the
incoming events do. -/
theorem malApiPath_events_none (pfx nid : String) (api : String → Option String)
    (evs : List CacheEvent) (h : ∀ e ∈ evs, CacheEvent.cacheTypeOf e = none) :
    ∀ e ∈ (MALService.apiPath pfx nid api evs).events,
      CacheEvent.cacheTypeOf e = none := by
  intro e he
  cases ha : api nid with
  | none =>
    simp only [MALService.apiPath, ha] at he
    refine events_append_none evs _ h ?_ e he
    rfl
  | some v =>
    simp only [MALService.apiPath, ha] at he
    refine events_append_none evs _ h ?_ e he
    rfl

/-- All cache events of the AniDB resolution path carry a `none` cache type,
given the incoming events do. -/
theorem anidbApiPath_events_none (pfx nid : String)
    (wd : String → Option String × Option String) (cine : String → Option String)
    (evs : List CacheEvent) (h : ∀ e ∈ evs, CacheEvent.cacheTypeOf e = none) :
    ∀ e ∈ (AniDBService.apiPath pfx nid wd cine evs).events,
      CacheEvent.cacheTypeOf e = none := by
  intro e he
  rcases hwd : wd nid with ⟨ia, ta⟩
  simp only [AniDBService.apiPath, hwd] at he
  cases hia : jsTruthyStr ia with
  | some imdbId =>
    simp only [hia] at he
    refine events_append_none evs _ h ?_ e he
    rfl
  | none =>
    simp only [hia] at he
    cases hta : jsTruthyStr ta with
    | some title =>
      simp only [hta] at he
      cases hc : jsTruthyStr (cine title) with
      | some imdbId =>
        simp only [hc] at he
        refine events_append_none evs _ h ?_ e he
        rfl
      | none =>
        simp only [hc] at he
        refine events_append_none evs _ h ?_ e he
        rfl
    | none =>
      simp only [hta] at he
      refine events_append_none evs _ h ?_ e he
      rfl

/-- C9: the `CACHE_TYPES` enumeration holds exactly the five members
`TRANSLATION`/`BYPASS`/`PARTIAL`/`SYNC`/`SESSION` (with their lowercase
values) and has no `PROVIDER_METADATA` member, so the property access the
ID-mapping services pass as `cacheType` is `undefined` (`none`) — and indeed
every shared-cache read and write either service performs carries a `none`
cache type. -/
theorem C9_no_provider_metadata_member :
    StorageAdapter.CACHE_TYPES "PROVIDER_METADATA" = none ∧
    StorageAdapter.CACHE_TYPES "TRANSLATION" = some "translation" ∧
    StorageAdapter.CACHE_TYPES "BYPASS" = some "bypass" ∧
    StorageAdapter.CACHE_TYPES "PARTIAL" = some "partial" ∧
    StorageAdapter.CACHE_TYPES "SYNC" = some "sync" ∧
    StorageAdapter.CACHE_TYPES "SESSION" = some "session" ∧
    (∀ member, (StorageAdapter.CACHE_TYPES member).isSome = true →
      member ∈ (["TRANSLATION", "BYPASS", "PARTIAL", "SYNC", "SESSION"] : List String)) ∧
    MALService.cacheTypeArg = none ∧
    AniDBService.cacheTypeArg = none ∧
    (∀ (pfx : String) (gs : CacheReadOracle) (api : String → Option String)
        (malId : JsValue) (r : SvcResult),
      MALService.getImdbId pfx gs api malId = Except.ok r →
      ∀ ev ∈ r.events, CacheEvent.cacheTypeOf ev = none) ∧
    (∀ (pfx : String) (gs : CacheReadOracle)
        (wd : String → Option String × Option String)
        (cine : String → Option String) (anidbId : JsValue) (r : SvcResult),
      AniDBService.getImdbId pfx gs wd cine anidbId = Except.ok r →
      ∀ ev ∈ r.events, CacheEvent.cacheTypeOf ev = none) := by
  have hct : MALService.cacheTypeArg = none := rfl
  have hct2 : AniDBService.cacheTypeArg = none := rfl
  refine ⟨rfl, rfl, rfl, rfl, rfl, rfl, ?_, hct, hct2, ?_, ?_⟩
  · intro member h
    unfold StorageAdapter.CACHE_TYPES at h
    split_ifs at h with h1 h2 h3 h4 h5
    · simp [h1]
    · simp [h2]
    · simp [h3]
    · simp [h4]
    · simp [h5]
    · simp at h
  · intro pfx gs api malId r hr ev hev
    cases hx : extractNumericId "mal" malId with
    | none =>
      simp only [MALService.getImdbId, hx] at hr
      cases hr
      simp at hev
    | some nid =>
      simp only [MALService.getImdbId, hx] at hr
      rcases hg : gs (pfx ++ nid) MALService.cacheTypeArg with err | val
      · simp only [hg] at hr
        cases hr
        exact malApiPath_events_none pfx nid api _
          (fun e he => by simp only [List.mem_singleton] at he; subst he; rfl) ev hev
      · simp only [hg] at hr
        cases val with
        | none =>
          cases hr
          exact malApiPath_events_none pfx nid api _
            (fun e he => by simp only [List.mem_singleton] at he; subst he; rfl) ev hev
        | some cached =>
          cases hr
          simp only [List.mem_singleton] at hev
          subst hev
          rfl
  · intro pfx gs wd cine anidbId r hr ev hev
    cases hx : extractNumericId "anidb" anidbId with
    | none =>
      simp only [AniDBService.getImdbId, hx] at hr
      cases hr
      simp at hev
    | some nid =>
      simp only [AniDBService.getImdbId, hx] at hr
      rcases hg : gs (pfx ++ nid) AniDBService.cacheTypeArg with err | val
      · simp only [hg] at hr
        cases hr
        exact anidbApiPath_events_none pfx nid wd cine _
          (fun e he => by simp only [List.mem_singleton] at he; subst he; rfl) ev hev
      · simp only [hg] at hr
        cases val with
        | none =>
          cases hr
          exact anidbApiPath_events_none pfx nid wd cine _
            (fun e he => by simp only [List.mem_singleton] at he; subst he; rfl) ev hev
        | some cached =>
          cases hr
          simp only [List.mem_singleton] at hev
          subst hev
          rfl

/-- C9 witness: the closure clause of the theorem at the concrete member
`TRANSLATION`, and the events clause at a concrete cache-hit run of the MAL
service. -/
theorem C9_witness :
    "TRANSLATION" ∈ (["TRANSLATION", "BYPASS", "PARTIAL", "SYNC", "SESSION"] : List String) ∧
    (∀ ev ∈ ([CacheEvent.read "mal_imdb:21" none] : List CacheEvent),
      CacheEvent.cacheTypeOf ev = none) :=
  ⟨C9_no_provider_metadata_member.2.2.2.2.2.2.1 "TRANSLATION" (by decide),
    C9_no_provider_metadata_member.2.2.2.2.2.2.2.2.2.1 "mal_imdb:"
      (fun _ _ => Except.ok (some "tt0112718")) (fun _ => none) (.str "mal:21")
      { result := some "tt0112718", apiContacted := false,
        events := [CacheEvent.read "mal_imdb:21" none] }
      (by rfl)⟩

end Spec2Proof
